import Mathlib

/-!
Bandwidth sharing pool: shallow embedding of the registry / routing core

This file embeds, in Lean 4, the core of the `BandwidthSharingPool` Rust
repository: the orchestrator's node registry, routing-request handler,
heartbeat ingestion and health sweep (`src/orchestrator/src/main.rs`), the
worker-side admission decision (`src/node/src/main.rs`), and the topic-string
derivations used on the responder and requester sides
(`src/orchestrator/src/main.rs`, `src/node/src/main.rs`,
`src/client/src/main.rs`).

Modelling conventions:
* Rust `u32`/`u64` counters and timestamps become `Nat`; the values involved
  (loads up to a configured capacity, Unix-epoch seconds) are far from the
  wrap-around boundary, and `current_time - info.last_heartbeat` (a `u64`
  subtraction in the source) is modelled by truncated `Nat` subtraction, which
  agrees with the source whenever `last_heartbeat <= current_time` — true for
  every registry entry the orchestrator itself writes, since ingestion stamps
  the local receipt clock.
* `HashMap<String, _>` becomes an association list `List (String × _)`.
  A `HashMap`'s iteration order is arbitrary; where the source iterates a map
  (candidate selection), the model takes the iteration order as the order of
  the list, so order-dependence of the source is visible as list-order
  dependence of the model.
* The selection key `((current_load as f32 / capacity as f32) * 100.0) as u32`
  is modelled by emulating IEEE-754 binary32 arithmetic exactly in integer
  arithmetic: `roundSigRatio` rounds a nonnegative ratio to the nearest value
  with a 24-bit significand (round-to-nearest, ties-to-even), represented as
  an exact dyadic pair, and `loadPercentKey` applies it to each conversion
  and operation the source performs (`u32` to `f32` on both operands, the
  division, the multiplication by 100) before truncating toward zero — so
  double roundings of the source are reproduced, e.g. the key of load 53 over
  capacity 100 is 52, not 53 (`loadPercentKey_examples`). For the whole `u32`
  input range the intermediate values lie inside the binary32 normal finite
  range, so no subnormal or overflow handling is needed. The key is only ever
  applied to candidates that passed the admission filter, so `capacity > 0`
  there (the model returns 0 on a zero divisor; that case is unreachable
  through `selectNode`).
* MQTT publication is modelled by returning the list of published
  (topic, payload) messages; JSON serialization of the response structs in the
  source cannot fail, so the `if let Ok(..) = serde_json::to_string(..)`
  guards always take the `Ok` branch.
-/

/-- Rust `NodeStatus` from `src/common/src/common.rs`. -/
inductive NodeStatus where
  | Active
  | Inactive
  | Maintenance
  | Error
  | Offline
deriving DecidableEq, Repr

/-- Rust `NodeType` from `src/common/src/common.rs`. -/
inductive NodeType where
  | Node
  | Client
  | Monitor
deriving DecidableEq, Repr

/-- Rust `NodeInfo` from `src/common/src/common.rs`. -/
structure NodeInfo where
  node_id : String
  node_type : NodeType
  last_heartbeat : Nat
  status : NodeStatus
  capacity : Nat
  current_load : Nat
  version : String
  metadata : List (String × String)
deriving DecidableEq, Repr

/-- Rust `RoutingRequest` from `src/common/src/common.rs`. -/
structure RoutingRequest where
  client_id : String
  data_type : List String
  node_info : NodeInfo
  preferred_node : Option String
  timestamp : Nat
deriving DecidableEq, Repr

/-- Rust `RoutingStatus` from `src/common/src/common.rs`. -/
inductive RoutingStatus where
  | Accepted
  | Rejected
  | Pending
deriving DecidableEq, Repr

/-- Rust `ClientConfiguration` from `src/common/src/common.rs`. -/
structure ClientConfiguration where
  subscribe_topics : List String
  publish_topic : String
  qos : Nat
  max_batch_size : Nat
  processing_timeout_ms : Nat
deriving DecidableEq, Repr

/-- Rust `RoutingResponse` from `src/common/src/common.rs`. -/
structure RoutingResponse where
  node_id : String
  client_id : String
  status : RoutingStatus
  rejection_reason : Option String
  configuration : Option ClientConfiguration
  timestamp : Nat
deriving DecidableEq, Repr

/-- The orchestrator's registry `nodes: HashMap<String, NodeInfo>`, as an
association list in iteration order. -/
abbrev Registry := List (String × NodeInfo)

/-- Lookup, Rust `HashMap::get`: the value bound to `id`, if any. Association lists built by
`insertNode` bind each key at most once, so `find?` is the map lookup. -/
def lookupNode (nodes : Registry) (id : String) : Option NodeInfo :=
  (nodes.find? (fun p => p.1 == id)).map Prod.snd

/-- Insert, Rust `HashMap::insert`: bind `id` to `info`, replacing any previous binding. -/
def insertNode (nodes : Registry) (id : String) (info : NodeInfo) : Registry :=
  (id, info) :: nodes.filter (fun p => p.1 != id)

/-- The orchestrator's routing table `routing_table: HashMap<String, String>`
(`client_id -> node_id`), as an association list. -/
abbrev RoutingTable := List (String × String)

/-- Insert, Rust `HashMap::insert`, on the routing table. -/
def insertRoute (rt : RoutingTable) (client_id node_id : String) : RoutingTable :=
  (client_id, node_id) :: rt.filter (fun p => p.1 != client_id)

/-- The orchestrator's shared state (`OrchestrationService`, orchestrator
`main.rs` lines 17–22): the node registry plus the routing table. -/
structure OrchState where
  nodes : Registry
  routing_table : RoutingTable
deriving DecidableEq, Repr

/-- One MQTT publication of a routing response. -/
structure Published where
  topic : String
  response : RoutingResponse
deriving DecidableEq, Repr

/-- The candidate filter of orchestrator `handle_routing_request`
(lines 69–73): status `Active`, room for one more unit, node type `Node`. -/
def eligible (info : NodeInfo) : Bool :=
  info.status == NodeStatus.Active
    && info.current_load + 1 ≤ info.capacity
    && info.node_type == NodeType.Node

/-- Round the positive ratio `p / q` to the nearest integer, ties to even —
the IEEE-754 default rounding applied to a significand. -/
def rnePos (p q : Nat) : Nat :=
  let n := p / q
  let r := p % q
  if 2 * r < q then n
  else if q < 2 * r then n + 1
  else if n % 2 = 0 then n else n + 1

/-- Fuel-driven floor of the base-2 logarithm: counts how often `n` can be
halved before dropping below 2. Structural in the fuel so the kernel can
evaluate it; `fuel = n` always suffices. -/
def floorLog2Aux : Nat → Nat → Nat
  | 0, _ => 0
  | fuel + 1, n => if 2 ≤ n then floorLog2Aux fuel (n / 2) + 1 else 0

/-- Floor of the base-2 logarithm of `n` (0 for `n = 0`). -/
def natFloorLog2 (n : Nat) : Nat :=
  floorLog2Aux n n

/-- Round the nonnegative ratio `p / q` to the nearest IEEE-754 binary32
value (round-to-nearest, ties-to-even), returned exactly as a dyadic pair
`(m, d)` standing for `m / 2 ^ d`: compute `e = ⌊log2 (p / q)⌋ - 23` (via
scaling by `2 ^ (⌊log2 q⌋ + 1)` so the scaled quotient is at least 1), round
the significand `p / (q · 2 ^ e)` to an integer with `rnePos`, and keep the
scale in the pair. Exact over the whole binary32 normal range, which covers
every value arising from `u32`-ranged loads and capacities; a zero numerator
or denominator yields `(0, 0)` (only `0.0` occurs in the source through
`selectNode`, whose filter guarantees a positive capacity). -/
def roundSigRatio (p q : Nat) : Nat × Nat :=
  if p = 0 ∨ q = 0 then (0, 0)
  else
    let s := natFloorLog2 q + 1
    let e : Int := (natFloorLog2 ((p * 2 ^ s) / q) : Int) - (s : Int) - 23
    if e ≥ 0 then (rnePos p (q * 2 ^ e.toNat) * 2 ^ e.toNat, 0)
    else (rnePos (p * 2 ^ (-e).toNat) q, (-e).toNat)

/-- The ranking key of orchestrator `handle_routing_request` (line 75):
`((current_load as f32 / capacity as f32) * 100.0) as u32`, emulated exactly
step by step: both `u32` operands are converted to `f32` (a rounding for
values at or above `2 ^ 24`), divided in `f32`, multiplied in `f32` by the
exactly representable `100.0`, and the result truncated toward zero. -/
def loadPercentKey (info : NodeInfo) : Nat :=
  let fl := roundSigRatio info.current_load 1
  let fc := roundSigRatio info.capacity 1
  let fd := roundSigRatio (fl.1 * 2 ^ fc.2) (fc.1 * 2 ^ fl.2)
  let fm := roundSigRatio (fd.1 * 100) (2 ^ fd.2)
  fm.1 / 2 ^ fm.2

/-- Rust `Iterator::min_by_key` on `loadPercentKey`: the first element of the
list attaining the minimal key (`min_by_key` returns the first of several
equally minimal elements), or `none` on the empty list. -/
def minByLoadKey : List (String × NodeInfo) → Option (String × NodeInfo)
  | [] => none
  | p :: rest =>
    match minByLoadKey rest with
    | none => some p
    | some q => if loadPercentKey p.2 ≤ loadPercentKey q.2 then some p else some q

/-- Candidate selection of orchestrator `handle_routing_request`
(lines 67–76): filter the registry iteration to eligible candidates, then
`min_by_key` on the truncated percent key. -/
def selectNode (nodes : Registry) : Option (String × NodeInfo) :=
  minByLoadKey (nodes.filter (fun p => eligible p.2))

/-- In-place load increment of the selected entry (orchestrator line 80,
through the `iter_mut` reference); with unique keys this updates exactly the
selected binding. -/
def bumpLoad (nodes : Registry) (id : String) : Registry :=
  nodes.map (fun p =>
    if p.1 == id then (p.1, { p.2 with current_load := p.2.current_load + 1 }) else p)

/-- The `ClientConfiguration` built on acceptance (orchestrator lines 90–99). -/
def slaveConfigFor (client_id : String) : ClientConfiguration :=
  { subscribe_topics := ["data/input/" ++ client_id, "control/" ++ client_id]
    publish_topic := "data/processed/" ++ client_id
    qos := 1
    max_batch_size := 100
    processing_timeout_ms := 30000 }

/-- The response topic all responders publish on:
`format!("routing/response/{}", client_id)` (orchestrator lines 116 and 291,
node `main.rs` line 214). -/
def routingResponseTopic (client_id : String) : String :=
  "routing/response/" ++ client_id

/-- Orchestrator `handle_routing_request` (lines 62–155): select a candidate;
on success increment its load, record the routing-table entry and publish
`Accepted` with a configuration; otherwise publish `Rejected` with reason
`"No available master nodes"` and the sentinel node id `"none"`.
`now` is the wall-clock second used for the response timestamp. -/
def handle_routing_request (now : Nat) (st : OrchState) (request : RoutingRequest) :
    OrchState × Published :=
  match selectNode st.nodes with
  | some (node_id, _) =>
    let st' : OrchState :=
      { nodes := bumpLoad st.nodes node_id
        routing_table := insertRoute st.routing_table request.client_id node_id }
    let response : RoutingResponse :=
      { node_id := node_id
        client_id := request.client_id
        status := RoutingStatus.Accepted
        rejection_reason := none
        configuration := some (slaveConfigFor request.client_id)
        timestamp := now }
    (st', { topic := routingResponseTopic request.client_id, response := response })
  | none =>
    let response : RoutingResponse :=
      { node_id := "none"
        client_id := request.client_id
        status := RoutingStatus.Rejected
        rejection_reason := some "No available master nodes"
        configuration := none
        timestamp := now }
    (st, { topic := routingResponseTopic request.client_id, response := response })

/-- Heartbeat ingestion, the `heartbeat/master/` branch of the orchestrator
event loop (lines 169–192): `node_id` is the last segment of the topic,
`payload` the deserialized `NodeInfo`. The registry's tracked `current_load`
for the node (or 0 if absent) overwrites the payload's, `last_heartbeat` is
stamped with the local receipt clock `now`, and the record is inserted. -/
def ingestHeartbeat (now : Nat) (st : OrchState) (node_id : String)
    (payload : NodeInfo) : OrchState :=
  let current_load := ((lookupNode st.nodes node_id).map NodeInfo.current_load).getD 0
  let record := { payload with current_load := current_load, last_heartbeat := now }
  { st with nodes := insertNode st.nodes node_id record }

/-- The liveness deadline of `cleanup_inactive_nodes` (line 235): 15 seconds. -/
def livenessDeadline : Nat := 15

/-- A registry entry is stale at `current_time` when
`current_time - last_heartbeat > 15` (line 240). -/
def isStale (current_time : Nat) (info : NodeInfo) : Bool :=
  current_time - info.last_heartbeat > livenessDeadline

/-- Orchestrator `cleanup_inactive_nodes` (lines 229–299): computes the stale
set, but the loop that would remove stale entries from the registry is
commented out in the source (lines 244–262), so the registry is returned
unchanged; the routing table retains exactly the entries whose target is a key
of the (unchanged) registry, and a `Rejected` response with reason
`"Node failed to connect"` is published for each dropped entry's client. -/
def cleanup_inactive_nodes (current_time : Nat) (st : OrchState) :
    OrchState × List Published :=
  let _inactive_nodes : List String :=
    (st.nodes.filter (fun p => isStale current_time p.2)).map Prod.fst
  let keep := st.routing_table.filter (fun e => st.nodes.any (fun p => p.1 == e.2))
  let affected :=
    (st.routing_table.filter (fun e => !(st.nodes.any (fun p => p.1 == e.2)))).map Prod.fst
  let msgs := affected.map (fun client_id =>
    { topic := routingResponseTopic client_id
      response :=
        { node_id := "none"
          client_id := client_id
          status := RoutingStatus.Rejected
          rejection_reason := some "Node failed to connect"
          configuration := none
          timestamp := current_time } })
  ({ st with routing_table := keep }, msgs)

/-- Worker-side admission decision, node `main.rs` `handle_routing_request`
(lines 167–183): the `(status, rejection_reason)` pair computed from the
worker's own record, its current load counter and the request. The rules
apply in source order: capacity check first, then the preferred-node check,
otherwise accept. The decision reads `current_load` and never mutates it. -/
def admissionDecision (node_info : NodeInfo) (current_load_val : Nat)
    (request : RoutingRequest) : RoutingStatus × Option String :=
  if current_load_val ≥ node_info.capacity then
    (RoutingStatus.Rejected, some "Capacity limit reached")
  else if request.preferred_node.isSome
      && request.preferred_node != some node_info.node_id then
    (RoutingStatus.Rejected, some "Not preferred master")
  else
    (RoutingStatus.Accepted, none)

/-- The worker-side response built from the decision (node `main.rs`
lines 185–211), published on `routingResponseTopic request.client_id`
(line 214). -/
def nodeRoutingResponse (node_info : NodeInfo) (current_load_val : Nat)
    (request : RoutingRequest) (now : Nat) : RoutingResponse :=
  let d := admissionDecision node_info current_load_val request
  { node_id := node_info.node_id
    client_id := request.client_id
    status := d.1
    rejection_reason := d.2
    configuration :=
      if d.1 == RoutingStatus.Accepted then
        some
          { subscribe_topics :=
              ["data/response/" ++ node_info.node_id ++ "/" ++ request.client_id,
               "data/broadcast/#"]
            publish_topic :=
              "data/request/" ++ node_info.node_id ++ "/" ++ request.client_id
            qos := 1
            max_batch_size := 100
            processing_timeout_ms := 5000 }
      else none
    timestamp := now }

/-- The topic prefix the requester uses to recognize its placement responses,
client `main.rs` lines 226–229:
`format!("routing/response/slave-{}", node_info.node_id)`, checked with
`starts_with`. The requester's `client_id` in its `RoutingRequest` is this
same `node_id` (client `main.rs` line 155). -/
def clientRoutingPrefix (node_id : String) : String :=
  "routing/response/slave-" ++ node_id

/-- The real-valued load ratio `current_load / capacity` as the spec words it
(§3, §4.3): an exact rational, not truncated. Stated from the spec for
comparison with the source's truncated `loadPercentKey`. -/
def loadRatio (info : NodeInfo) : ℚ :=
  (info.current_load : ℚ) / (info.capacity : ℚ)

/-- The per-entry registry invariant of the spec (§3, §8):
`0 ≤ current_load ≤ capacity` for every record; the lower bound is inherent
to `Nat`. -/
def RegInvariant (nodes : Registry) : Prop :=
  ∀ p ∈ nodes, (p : String × NodeInfo).2.current_load ≤ p.2.capacity

/-- Test fixture: a worker `NodeInfo` with the given id, capacity, load and
heartbeat time, matching `NodeInfo::new(NodeType::Node, capacity)` with the
load and heartbeat fields set. -/
def mkNode (id : String) (cap load hb : Nat) : NodeInfo :=
  { node_id := id
    node_type := NodeType.Node
    last_heartbeat := hb
    status := NodeStatus.Active
    capacity := cap
    current_load := load
    version := "0.1.0"
    metadata := [] }

/-- Test fixture: a `RoutingRequest` as built by client `request_routing`
(client `main.rs` lines 153–163), with an explicit preference. -/
def mkRequest (cid : String) (pref : Option String) : RoutingRequest :=
  { client_id := cid
    data_type := ["text", "sensor"]
    node_info := mkNode cid 100 0 0
    preferred_node := pref
    timestamp := 0 }

/-- Sanity check of the `f32` emulation against binary32 semantics at the
repository's default capacity (`NODE_CAPACITY` defaults to 100): the `f32`
quotient 53/100 rounds below 0.53 and the product with 100 rounds below 53,
so the truncated key is 52, one less than the exact whole percent; likewise
590/1000. At exactly representable ratios (9/10 is rounded but lands on 90
after the multiply; 1/512 and powers of two are exact) the key agrees with
the exact truncation. -/
theorem loadPercentKey_examples :
    loadPercentKey (mkNode "w" 100 53 0) = 52
    ∧ loadPercentKey (mkNode "w" 100 59 0) = 58
    ∧ loadPercentKey (mkNode "w" 1000 530 0) = 52
    ∧ loadPercentKey (mkNode "w" 10 9 0) = 90
    ∧ loadPercentKey (mkNode "w" 512 1 0) = 0
    ∧ loadPercentKey (mkNode "w" 2 2 0) = 100 := by
  exact ⟨by decide, by decide, by decide, by decide, by decide, by decide⟩

theorem minByLoadKey_eq_none : ∀ {l : List (String × NodeInfo)},
    minByLoadKey l = none ↔ l = [] := by
  intro l
  cases l with
  | nil => simp [minByLoadKey]
  | cons a rest =>
    simp only [List.cons_ne_nil, iff_false]
    intro h
    rw [minByLoadKey] at h
    split at h
    · exact Option.noConfusion h
    · split at h <;> exact Option.noConfusion h

theorem minByLoadKey_mem : ∀ (l : List (String × NodeInfo)) (p : String × NodeInfo),
    minByLoadKey l = some p → p ∈ l := by
  intro l
  induction l with
  | nil => intro p h; simp [minByLoadKey] at h
  | cons a rest ih =>
    intro p h
    rw [minByLoadKey] at h
    split at h
    · injection h with h
      exact h ▸ List.mem_cons_self a rest
    · rename_i q0 hr
      split at h
      · injection h with h
        exact h ▸ List.mem_cons_self a rest
      · injection h with h
        exact List.mem_cons_of_mem a (h ▸ ih q0 hr)

theorem minByLoadKey_min : ∀ (l : List (String × NodeInfo)) (p : String × NodeInfo),
    minByLoadKey l = some p → ∀ q ∈ l, loadPercentKey p.2 ≤ loadPercentKey q.2 := by
  intro l
  induction l with
  | nil => intro p h; simp [minByLoadKey] at h
  | cons a rest ih =>
    intro p h q hq
    rw [minByLoadKey] at h
    split at h
    · rename_i hr
      injection h with h
      have hrest : rest = [] := minByLoadKey_eq_none.mp hr
      subst hrest
      rcases List.mem_cons.mp hq with rfl | hq'
      · exact h ▸ le_refl _
      · exact absurd hq' (List.not_mem_nil q)
    · rename_i q0 hr
      split at h
      · rename_i hk
        injection h with h
        rcases List.mem_cons.mp hq with rfl | hq'
        · exact h ▸ le_refl _
        · exact h ▸ le_trans hk (ih q0 hr q hq')
      · rename_i hk
        injection h with h
        rcases List.mem_cons.mp hq with rfl | hq'
        · exact h ▸ le_of_lt (lt_of_not_le hk)
        · exact h ▸ ih q0 hr q hq'

theorem selectNode_some (nodes : Registry) (p : String × NodeInfo)
    (h : selectNode nodes = some p) :
    p ∈ nodes ∧ eligible p.2 = true ∧
      ∀ q ∈ nodes, eligible q.2 = true → loadPercentKey p.2 ≤ loadPercentKey q.2 := by
  have hmem := minByLoadKey_mem _ _ h
  have hmin := minByLoadKey_min _ _ h
  rw [List.mem_filter] at hmem
  exact ⟨hmem.1, hmem.2, fun q hq he => hmin q (List.mem_filter.mpr ⟨hq, he⟩)⟩

theorem selectNode_eq_none (nodes : Registry) :
    selectNode nodes = none ↔ ∀ q ∈ nodes, eligible (q : String × NodeInfo).2 = false := by
  rw [selectNode, minByLoadKey_eq_none, List.filter_eq_nil_iff]
  constructor
  · intro h q hq
    simpa using h q hq
  · intro h q hq
    simp [h q hq]

/-- Claim C1 (counterexample). Registry snapshot with two eligible workers:
`node-a` (capacity 512, load 1, real load ratio 1/512) and `node-b`
(capacity 8, load 0, real load ratio 0). Both have `f32` sort key 0, so
`min_by_key` keeps
whichever the `HashMap` iteration yields first: in one iteration order the
code picks `node-a` even though `node-b` has the strictly smaller real-valued
ratio and the smaller id would also not break the tie toward `node-a`; the
permuted iteration order of the identical snapshot picks `node-b` instead, so
selection is not determined by the snapshot alone. -/
theorem C1_counterexample :
    ((selectNode [("node-a", mkNode "node-a" 512 1 0), ("node-b", mkNode "node-b" 8 0 0)]).map
        Prod.fst = some "node-a")
    ∧ ((selectNode [("node-b", mkNode "node-b" 8 0 0), ("node-a", mkNode "node-a" 512 1 0)]).map
        Prod.fst = some "node-b")
    ∧ loadRatio (mkNode "node-b" 8 0 0) < loadRatio (mkNode "node-a" 512 1 0)
    ∧ eligible (mkNode "node-a" 512 1 0) = true
    ∧ eligible (mkNode "node-b" 8 0 0) = true := by
  refine ⟨by decide, by decide, ?_, by decide, by decide⟩
  norm_num [loadRatio, mkNode]

/-- Claim C1 (amended): in centralized mode, selection considers exactly the
candidates with status `Active`, node type `Node` (the worker type) and room
for one more unit of load, and among them returns one whose sort key — the
`f32` computation `((current_load as f32 / capacity as f32) * 100.0) as u32`,
i.e. the load ratio rounded through `f32` arithmetic and truncated to a whole
number (`loadPercentKey`) — is minimal; ties between equal keys are broken by
the registry's iteration order (first wins), not by node id, so the result is
deterministic only relative to a fixed iteration order. When no candidate
qualifies, selection returns `none`. -/
theorem C1_centralized_selection (nodes : Registry) :
    (∀ p, selectNode nodes = some p →
        p ∈ nodes ∧ eligible p.2 = true ∧
          ∀ q ∈ nodes, eligible q.2 = true → loadPercentKey p.2 ≤ loadPercentKey q.2)
    ∧ (selectNode nodes = none ↔ ∀ q ∈ nodes, eligible (q : String × NodeInfo).2 = false) :=
  ⟨fun p h => selectNode_some nodes p h, selectNode_eq_none nodes⟩

/-- Witness for `C1_centralized_selection` at a concrete two-worker registry:
the selected candidate is a member of the snapshot, is eligible, and its
truncated key is minimal. -/
theorem C1_centralized_selection_witness :
    ("node-b", mkNode "node-b" 8 0 0) ∈
        [("node-b", mkNode "node-b" 8 0 0), ("node-a", mkNode "node-a" 512 1 0)]
    ∧ eligible (mkNode "node-b" 8 0 0) = true
    ∧ loadPercentKey (mkNode "node-b" 8 0 0) ≤ loadPercentKey (mkNode "node-a" 512 1 0) := by
  have h := (C1_centralized_selection
      [("node-b", mkNode "node-b" 8 0 0), ("node-a", mkNode "node-a" 512 1 0)]).1
      ("node-b", mkNode "node-b" 8 0 0) (by decide)
  exact ⟨h.1, h.2.1, h.2.2 ("node-a", mkNode "node-a" 512 1 0) (by decide) (by decide)⟩

/-- Claim C2 (code bug): worker `w3` last heartbeated at time 0, requester
`r9` is routed to it, and the sweep runs at time 100, so `w3` is stale
(`100 - 0 > 15`). One pass of `cleanup_inactive_nodes` nevertheless returns
the state unchanged and publishes nothing: the registry-removal loop is
commented out in the source (orchestrator lines 244–262), so `w3` stays in
the registry (and stays selectable), the routing-table retention test
(`nodes.contains_key`) still finds `w3` and keeps `r9`'s entry, and no
`Rejected` response is emitted — and the reason string the dead notification
path would use is `"Node failed to connect"`, not
`"assigned worker became unreachable"`. -/
theorem C2_sweep_ignores_stale_nodes :
    isStale 100 (mkNode "w3" 10 0 0) = true
    ∧ cleanup_inactive_nodes 100
        { nodes := [("w3", mkNode "w3" 10 0 0)], routing_table := [("r9", "w3")] }
      = ({ nodes := [("w3", mkNode "w3" 10 0 0)], routing_table := [("r9", "w3")] }, []) := by
  exact ⟨by decide, by decide⟩

/-- Claim C3 (code bug): a reachable violation of the routing-table
invariant. Start from the empty state; ingest `w3`'s heartbeat at time 0
(creating an `Active` worker record with `last_heartbeat = 0`); accept the
placement of requester `r9` at time 0 (creating routing entry `r9 -> w3`);
run the health sweep at time 100. At this observation point the entry
`r9 -> w3` is still present while its target's registry record is stale
(`100 - 0 > 15`), because the sweep never removed the stale record or the
entry. -/
theorem C3_routing_invariant_violated :
    (("r9", "w3") ∈
      ((cleanup_inactive_nodes 100
        (handle_routing_request 0
          (ingestHeartbeat 0 { nodes := [], routing_table := [] } "w3" (mkNode "w3" 10 0 0))
          (mkRequest "r9" none)).1).1).routing_table)
    ∧ ((lookupNode
        ((cleanup_inactive_nodes 100
          (handle_routing_request 0
            (ingestHeartbeat 0 { nodes := [], routing_table := [] } "w3" (mkNode "w3" 10 0 0))
            (mkRequest "r9" none)).1).1).nodes "w3").map (fun info => isStale 100 info)
      = some true) := by
  exact ⟨by decide, by decide⟩

/-- Claim C9 (code bug): the release path does not exist. The health sweep —
the only code path that invalidates assignments — returns the node registry
identically unchanged (the removal loop is commented out and no other
statement of `cleanup_inactive_nodes` touches `nodes`), so no node's
`current_load` is ever decremented when a routing-table entry would be
invalidated; nothing else in the orchestrator decrements a load either
(`handle_routing_request` only increments, `ingestHeartbeat` preserves the
tracked value). Accepted-then-invalidated placements therefore consume
capacity permanently. -/
theorem C9_no_release_path (current_time : Nat) (st : OrchState) :
    (cleanup_inactive_nodes current_time st).1.nodes = st.nodes := rfl

/-- Claim C4 (counterexample): the registry holds `w1` with capacity 10 and
tracked load 5 (invariant satisfied); a heartbeat payload for `w1` arrives
carrying capacity 3. Ingestion keeps the tracked load (5) but takes every
other field — including capacity — from the payload, with no check, so the
stored record ends with `current_load = 5 > capacity = 3`: heartbeat
ingestion does not preserve the invariant unconditionally. -/
theorem C4_counterexample :
    RegInvariant [("w1", mkNode "w1" 10 5 0)]
    ∧ ((lookupNode
          (ingestHeartbeat 60
            { nodes := [("w1", mkNode "w1" 10 5 0)], routing_table := [] }
            "w1" (mkNode "w1" 3 0 50)).nodes "w1").map
        (fun info => decide (info.capacity < info.current_load)) = some true) := by
  refine ⟨?_, by decide⟩
  intro p hp
  simp only [List.mem_singleton] at hp
  subst hp
  decide

/-- Claim C4 (amended): `0 ≤ current_load ≤ capacity` holds for every
registry record at every observation point, and is preserved by the
accept-path load increment unconditionally (the candidate filter admits only
nodes with `current_load + 1 ≤ capacity`, and with `HashMap`-unique keys the
increment hits exactly the selected record) and by heartbeat ingestion
provided the payload's capacity is at least the registry's tracked load for
that node — in particular whenever a node's capacity never changes across its
heartbeats, as the spec's immutable-capacity lifecycle prescribes. The lower
bound is inherent to the `Nat`/`u32` representation. The health sweep
trivially preserves the invariant since it leaves the registry unchanged. -/
theorem C4_invariant_preservation (now : Nat) (st : OrchState) (req : RoutingRequest)
    (id : String) (payload : NodeInfo)
    (hkeys : (st.nodes.map Prod.fst).Nodup)
    (hinv : RegInvariant st.nodes)
    (hcap : ((lookupNode st.nodes id).map NodeInfo.current_load).getD 0 ≤ payload.capacity) :
    RegInvariant (handle_routing_request now st req).1.nodes
    ∧ RegInvariant (ingestHeartbeat now st id payload).nodes := by
  constructor
  · rw [handle_routing_request]
    cases hsel : selectNode st.nodes with
    | none => exact hinv
    | some p =>
      obtain ⟨node_id, info⟩ := p
      obtain ⟨hmem, helig, -⟩ := selectNode_some st.nodes _ hsel
      simp only
      intro q hq
      rw [bumpLoad, List.mem_map] at hq
      obtain ⟨r, hr, hrq⟩ := hq
      by_cases hid : r.1 == node_id
      · rw [if_pos hid] at hrq
        have hreq : r = (node_id, info) := by
          apply List.inj_on_of_nodup_map hkeys hr hmem
          exact eq_of_beq hid
        subst hrq
        simp only
        have := helig
        rw [eligible, Bool.and_assoc, Bool.and_eq_true, Bool.and_eq_true,
          decide_eq_true_eq] at this
        rw [hreq]
        exact this.2.1
      · rw [if_neg hid] at hrq
        exact hrq ▸ hinv r hr
  · intro q hq
    rw [ingestHeartbeat] at hq
    simp only at hq
    rw [insertNode, List.mem_cons] at hq
    rcases hq with rfl | hq'
    · simpa using hcap
    · exact hinv q (List.mem_of_mem_filter hq')

/-- Witness for `C4_invariant_preservation`: a concrete registry with one
worker (`w1`, capacity 10, load 5) whose keys are duplicate-free and whose
invariant holds; the accepted request and a same-capacity heartbeat both
preserve the invariant, instantiated and checked at the stored record. -/
theorem C4_invariant_preservation_witness :
    RegInvariant (handle_routing_request 7
        { nodes := [("w1", mkNode "w1" 10 5 0)], routing_table := [] }
        (mkRequest "r1" none)).1.nodes
    ∧ RegInvariant (ingestHeartbeat 7
        { nodes := [("w1", mkNode "w1" 10 5 0)], routing_table := [] }
        "w1" (mkNode "w1" 10 0 7)).nodes := by
  refine C4_invariant_preservation 7
    { nodes := [("w1", mkNode "w1" 10 5 0)], routing_table := [] }
    (mkRequest "r1" none) "w1" (mkNode "w1" 10 0 7) (by decide) ?_ (by decide)
  intro p hp
  simp only [List.mem_singleton] at hp
  subst hp
  decide

/-- Claim C5 (counterexample): the decision rules and their order match the
claim, but the reason strings do not. At a full candidate (capacity 1,
load 1) the decision is `Rejected` with reason `"Capacity limit reached"`,
not `"capacity limit reached"`; at a non-full candidate that is not the
preferred target the reason is `"Not preferred master"`, not
`"not preferred target"`. -/
theorem C5_counterexample :
    admissionDecision (mkNode "w1" 1 0 0) 1 (mkRequest "r1" none)
        = (RoutingStatus.Rejected, some "Capacity limit reached")
    ∧ ("Capacity limit reached" : String) ≠ "capacity limit reached"
    ∧ admissionDecision (mkNode "w1" 5 0 0) 0 (mkRequest "r1" (some "w9"))
        = (RoutingStatus.Rejected, some "Not preferred master")
    ∧ ("Not preferred master" : String) ≠ "not preferred target" := by
  exact ⟨by decide, by decide, by decide, by decide⟩

/-- Claim C5 (amended): for every candidate record, load counter value and
placement request, the worker-side admission decision applies its rules in
order — `Rejected` with reason `"Capacity limit reached"` when
`current_load + 1 > capacity` (the source's `current_load >= capacity`, an
equivalent integer test); otherwise `Rejected` with reason
`"Not preferred master"` when `preferred_node` is set and differs from the
candidate's id; otherwise `Accepted` with no reason — and the decision is a
pure function of its inputs: it reads the load and never mutates it. -/
theorem C5_admission_order (info : NodeInfo) (load : Nat) (req : RoutingRequest) :
    admissionDecision info load req =
      if load + 1 > info.capacity then
        (RoutingStatus.Rejected, some "Capacity limit reached")
      else if req.preferred_node.isSome ∧ req.preferred_node ≠ some info.node_id then
        (RoutingStatus.Rejected, some "Not preferred master")
      else
        (RoutingStatus.Accepted, none) := by
  rw [admissionDecision]
  by_cases h1 : load ≥ info.capacity
  · rw [if_pos h1, if_pos (show load + 1 > info.capacity by omega)]
  · rw [if_neg h1, if_neg (show ¬load + 1 > info.capacity by omega)]
    by_cases h2 : req.preferred_node.isSome = true ∧ req.preferred_node ≠ some info.node_id
    · have hb : (req.preferred_node.isSome && req.preferred_node != some info.node_id) = true := by
        rw [Bool.and_eq_true, bne_iff_ne]
        exact ⟨h2.1, h2.2⟩
      rw [if_pos hb, if_pos h2]
    · have hb : ¬(req.preferred_node.isSome && req.preferred_node != some info.node_id) = true := by
        rw [Bool.and_eq_true, bne_iff_ne]
        exact fun hc => h2 ⟨hc.1, hc.2⟩
      rw [if_neg hb, if_neg h2]

/-- Claim C6 (confirmed): for a node already present in the registry with
tracked load `L`, ingesting a heartbeat record leaves the tracked
`current_load` at `L` — the payload's load field is overwritten by the
registry's value before insertion — and ingesting the same record twice in a
row (at any two receipt times) still leaves it at `L`. -/
theorem C6_heartbeat_preserves_load (t1 t2 : Nat) (st : OrchState) (id : String)
    (payload info : NodeInfo)
    (h : lookupNode st.nodes id = some info) :
    ((lookupNode (ingestHeartbeat t1 st id payload).nodes id).map NodeInfo.current_load
        = some info.current_load)
    ∧ ((lookupNode
          (ingestHeartbeat t2 (ingestHeartbeat t1 st id payload) id payload).nodes id).map
        NodeInfo.current_load = some info.current_load) := by
  have hins : ∀ (l : Registry) (v : NodeInfo), lookupNode (insertNode l id v) id = some v := by
    intro l v
    rw [lookupNode, insertNode]
    simp [List.find?]
  constructor
  · simp [ingestHeartbeat, hins, h]
  · simp [ingestHeartbeat, hins, h]

/-- Witness for `C6_heartbeat_preserves_load`: worker `w1` is tracked with
load 5; a heartbeat payload claiming load 0 is ingested once and twice; the
tracked load stays 5 both times. -/
theorem C6_heartbeat_preserves_load_witness :
    ((lookupNode (ingestHeartbeat 20
          { nodes := [("w1", mkNode "w1" 10 5 0)], routing_table := [] }
          "w1" (mkNode "w1" 10 0 20)).nodes "w1").map NodeInfo.current_load = some 5)
    ∧ ((lookupNode (ingestHeartbeat 25 (ingestHeartbeat 20
          { nodes := [("w1", mkNode "w1" 10 5 0)], routing_table := [] }
          "w1" (mkNode "w1" 10 0 20)) "w1" (mkNode "w1" 10 0 20)).nodes "w1").map
        NodeInfo.current_load = some 5) :=
  C6_heartbeat_preserves_load 20 25
    { nodes := [("w1", mkNode "w1" 10 5 0)], routing_table := [] }
    "w1" (mkNode "w1" 10 0 20) (mkNode "w1" 10 5 0) (by decide)

/-- Claim C7 (counterexample): the only worker `w1` has
`current_load == capacity == 2`, so no candidate qualifies; the emitted
response carries reason `"No available master nodes"` — not the claimed
string `"no available workers"`. -/
theorem C7_counterexample :
    ((handle_routing_request 0
        { nodes := [("w1", mkNode "w1" 2 2 0)], routing_table := [] }
        (mkRequest "r1" none)).2.response.rejection_reason
      = some "No available master nodes")
    ∧ some "No available master nodes" ≠ some ("no available workers" : String) := by
  exact ⟨by decide, by decide⟩

/-- Claim C7 (amended): whenever no registry candidate qualifies (for
example, when every worker is at capacity), the handler publishes exactly one
response with outcome `Rejected`, reason exactly
`"No available master nodes"`, and the sentinel assigned node `"none"`; and
no call of the handler, on any state, ever emits a `Pending` outcome. -/
theorem C7_no_candidate_rejected (now : Nat) (st : OrchState) (req : RoutingRequest)
    (h : ∀ p ∈ st.nodes, eligible (p : String × NodeInfo).2 = false) :
    ((handle_routing_request now st req).2.response.status = RoutingStatus.Rejected
      ∧ (handle_routing_request now st req).2.response.node_id = "none"
      ∧ (handle_routing_request now st req).2.response.rejection_reason
          = some "No available master nodes")
    ∧ ∀ (st' : OrchState),
        (handle_routing_request now st' req).2.response.status ≠ RoutingStatus.Pending := by
  constructor
  · have hnone : selectNode st.nodes = none := (selectNode_eq_none st.nodes).mpr h
    rw [handle_routing_request, hnone]
    exact ⟨rfl, rfl, rfl⟩
  · intro st'
    rw [handle_routing_request]
    cases selectNode st'.nodes with
    | none => exact fun hc => RoutingStatus.noConfusion hc
    | some p => exact fun hc => RoutingStatus.noConfusion hc

/-- Witness for `C7_no_candidate_rejected` at a registry whose only worker is
at capacity. -/
theorem C7_no_candidate_rejected_witness :
    ((handle_routing_request 0
        { nodes := [("w1", mkNode "w1" 2 2 0)], routing_table := [] }
        (mkRequest "r1" none)).2.response.status = RoutingStatus.Rejected
      ∧ (handle_routing_request 0
        { nodes := [("w1", mkNode "w1" 2 2 0)], routing_table := [] }
        (mkRequest "r1" none)).2.response.node_id = "none"
      ∧ (handle_routing_request 0
        { nodes := [("w1", mkNode "w1" 2 2 0)], routing_table := [] }
        (mkRequest "r1" none)).2.response.rejection_reason
          = some "No available master nodes")
    ∧ ∀ (st' : OrchState),
        (handle_routing_request 0 st' (mkRequest "r1" none)).2.response.status
          ≠ RoutingStatus.Pending := by
  refine C7_no_candidate_rejected 0
    { nodes := [("w1", mkNode "w1" 2 2 0)], routing_table := [] }
    (mkRequest "r1" none) ?_
  intro p hp
  simp only [List.mem_singleton] at hp
  subst hp
  decide

set_option maxRecDepth 8192 in
/-- Claim C8 (code bug): for requester id `r1` (and likewise for every id)
the responder side — both the orchestrator and the worker — publishes on
`"routing/response/r1"`, while the requester recognizes its placement
responses by prefix `"routing/response/slave-r1"` derived from the same id.
The two derivations are not character-for-character identical, and the
published topic does not even start with the requester's prefix, so the
requester never matches a response published for it. -/
theorem C8_topic_templates_mismatch :
    routingResponseTopic "r1" = "routing/response/r1"
    ∧ clientRoutingPrefix "r1" = "routing/response/slave-r1"
    ∧ routingResponseTopic "r1" ≠ clientRoutingPrefix "r1"
    ∧ ((routingResponseTopic "r1").startsWith (clientRoutingPrefix "r1")) = false := by
  exact ⟨by decide, by decide, by decide, by decide⟩

/-- Claim C10 (counterexample): node `n1` is tracked with
`last_heartbeat = 10`. Two heartbeats for `n1` carrying `last_heartbeat`
values 200 and 100 — both greater than the tracked 10 — arrive out of send
order at local receipt times 11 and 12. Ingestion stamps the local receipt
clock and discards the carried value, so the registry ends up holding 12,
not the greater carried value 200. -/
theorem C10_counterexample :
    ((lookupNode
        (ingestHeartbeat 12
          (ingestHeartbeat 11
            { nodes := [("n1", mkNode "n1" 10 0 10)], routing_table := [] }
            "n1" (mkNode "n1" 10 0 200))
          "n1" (mkNode "n1" 10 0 100)).nodes "n1").map NodeInfo.last_heartbeat
      = some 12)
    ∧ (12 : Nat) ≠ 200
    ∧ (10 : Nat) < 100 ∧ (10 : Nat) < 200 := by
  exact ⟨by decide, by decide, by decide, by decide⟩

/-- Claim C10 (amended): heartbeat ingestion overwrites `last_heartbeat` with
the orchestrator's local receipt clock and ignores the value carried in the
payload. Consequently, for two heartbeats for the same node ingested at
receipt times `t1 ≤ t2`, the registry ends up holding `t2` regardless of
which payload arrived first, and the stored value never regresses as long as
the local receipt clock is nondecreasing: a record previously stamped no
later than `t1` moves up to `t1`, then to `t2`. -/
theorem C10_receipt_clock_monotone (st : OrchState) (id : String)
    (p1 p2 info : NodeInfo) (t1 t2 : Nat)
    (h : lookupNode st.nodes id = some info)
    (h1 : info.last_heartbeat ≤ t1) (h12 : t1 ≤ t2) :
    ((lookupNode (ingestHeartbeat t1 st id p1).nodes id).map NodeInfo.last_heartbeat
        = some t1)
    ∧ ((lookupNode
          (ingestHeartbeat t2 (ingestHeartbeat t1 st id p1) id p2).nodes id).map
        NodeInfo.last_heartbeat = some t2)
    ∧ ((lookupNode
          (ingestHeartbeat t2 (ingestHeartbeat t1 st id p2) id p1).nodes id).map
        NodeInfo.last_heartbeat = some t2)
    ∧ info.last_heartbeat ≤ t1 ∧ t1 ≤ t2 := by
  have hins : ∀ (l : Registry) (v : NodeInfo), lookupNode (insertNode l id v) id = some v := by
    intro l v
    rw [lookupNode, insertNode]
    simp [List.find?]
  refine ⟨?_, ?_, ?_, h1, h12⟩
  · simp [ingestHeartbeat, hins]
  · simp [ingestHeartbeat, hins]
  · simp [ingestHeartbeat, hins]

/-- Witness for `C10_receipt_clock_monotone`: node `n1` stamped 10, two
payloads carrying 200 and 100, receipt times 11 and 12. -/
theorem C10_receipt_clock_monotone_witness :
    ((lookupNode (ingestHeartbeat 11
          { nodes := [("n1", mkNode "n1" 10 0 10)], routing_table := [] }
          "n1" (mkNode "n1" 10 0 200)).nodes "n1").map NodeInfo.last_heartbeat
        = some 11)
    ∧ ((lookupNode
          (ingestHeartbeat 12 (ingestHeartbeat 11
            { nodes := [("n1", mkNode "n1" 10 0 10)], routing_table := [] }
            "n1" (mkNode "n1" 10 0 200)) "n1" (mkNode "n1" 10 0 100)).nodes "n1").map
        NodeInfo.last_heartbeat = some 12)
    ∧ ((lookupNode
          (ingestHeartbeat 12 (ingestHeartbeat 11
            { nodes := [("n1", mkNode "n1" 10 0 10)], routing_table := [] }
            "n1" (mkNode "n1" 10 0 100)) "n1" (mkNode "n1" 10 0 200)).nodes "n1").map
        NodeInfo.last_heartbeat = some 12)
    ∧ (mkNode "n1" 10 0 10).last_heartbeat ≤ 11 ∧ (11 : Nat) ≤ 12 :=
  C10_receipt_clock_monotone
    { nodes := [("n1", mkNode "n1" 10 0 10)], routing_table := [] }
    "n1" (mkNode "n1" 10 0 200) (mkNode "n1" 10 0 100) (mkNode "n1" 10 0 10)
    11 12 (by decide) (by decide) (by decide)
